import Mathlib

/-
Verification of the OAuth token lifecycle and playback projection logic of a
small Spotify "wallpaper" backend (src/server.js).

The embedding is shallow: each Express handler body is translated into a pure
Lean function.  External effects are passed in as explicit parameters:

* `Date.now()` becomes explicit `Int` millisecond arguments (`now` for the
  expiry check, `nowAfter` for the instant a token response is received,
  `ts` for the snapshot timestamp);
* a provider call (`authorizationCodeGrant`, `refreshAccessToken`,
  `getMyCurrentPlaybackState`) becomes an `Except` parameter whose `.error`
  case models the returned promise rejecting (the value carried by `.error`
  is the stringified form `String(err)` of the thrown value where the code
  stringifies it);
* `decodeURIComponent` (a JS builtin) becomes an `Except Unit String`
  parameter, `.error ()` modelling a `URIError` being thrown on malformed
  percent-encoding;
* the filesystem (`fs.existsSync`, `fs.readFileSync` + `JSON.parse` of
  `canvas.json`) becomes an `Fs` value.

JS truthiness on the string-or-null values involved (`null`/`undefined` and
`""` are falsy) is modelled by `jsTruthyStr`.  Times are kept in
milliseconds, as in the source.
-/

namespace SpotifyWallpaper

/-- JS truthiness of a string-or-nullish value: `null`/`undefined` (modelled
by `none`) and the empty string are falsy, every other string is truthy. -/
def jsTruthyStr : Option String → Bool
  | none => false
  | some s => s ≠ ""

/-- JS `String.prototype.startsWith(p)` (at position 0): `p` is a prefix of
the receiver. -/
def jsStartsWith (s p : String) : Bool :=
  p.data.isPrefixOf s.data

/-- The process-wide credential state: the access token held by the
`spotifyApi` object (`setAccessToken`/`getAccessToken`), the module-level
`REFRESH_TOKEN`, and `ACCESS_TOKEN_EXPIRES_AT` (milliseconds since epoch,
initially `0`). -/
structure Creds where
  accessToken : Option String
  refreshToken : Option String
  expiresAt : Int
  deriving DecidableEq

/-- Environment configuration: `CLIENT_ID` and `CLIENT_SECRET`
(`process.env.… || null`). -/
structure Config where
  clientId : Option String
  clientSecret : Option String
  deriving DecidableEq

/-- The `auth_possible` flag computed in the handlers:
`!!(CLIENT_ID && CLIENT_SECRET)`. -/
def authPossible (cfg : Config) : Bool :=
  jsTruthyStr cfg.clientId && jsTruthyStr cfg.clientSecret

/-- Body of a successful `refreshAccessToken()` provider response:
`access_token` and `expires_in` (seconds). -/
structure RefreshBody where
  access_token : String
  expires_in : Int
  deriving DecidableEq

/-- The refresh decision taken inside `refreshAccessTokenIfNeeded`
(the spec calls it `needsRefresh()`): the two early `return` guards
`if (!REFRESH_TOKEN) return` and
`if (Date.now() < ACCESS_TOKEN_EXPIRES_AT - 30000) return`. -/
def needsRefresh (c : Creds) (now : Int) : Bool :=
  if !(jsTruthyStr c.refreshToken) then false
  else if now < c.expiresAt - 30000 then false
  else true

/-- `refreshAccessTokenIfNeeded()` from src/server.js lines 155-168.
`refreshResult` is the outcome of the provider call
`spotifyApi.refreshAccessToken()`; the surrounding `try { … } catch (e)`
only logs, so a rejection leaves the state unchanged and the function
still returns normally (the function is total and never raises). -/
def refreshAccessTokenIfNeeded (c : Creds) (now nowAfter : Int)
    (refreshResult : Except String RefreshBody) : Creds :=
  if !(jsTruthyStr c.refreshToken) then c
  else if now < c.expiresAt - 30000 then c
  else
    match refreshResult with
    | .error _ => c
    | .ok b =>
        { c with accessToken := some b.access_token,
                 expiresAt := nowAfter + b.expires_in * 1000 }

/-! ## The OAuth callback (`GET /callback`, src/server.js lines 73-100) -/

/-- Body of a successful `authorizationCodeGrant(code)` response. -/
structure TokenBody where
  access_token : String
  refresh_token : String
  expires_in : Int
  deriving DecidableEq

/-- The three possible responses of the `/callback` handler. -/
inductive CallbackResponse where
  | missingCode
  | authError
  | redirect (target : String)
  deriving DecidableEq

/-- HTTP status of each `/callback` response
(400 "Missing code", 500 "Auth error", 302 redirect). -/
def callbackStatus : CallbackResponse → Nat
  | .missingCode => 400
  | .authError => 500
  | .redirect _ => 302

/-- Lines 86-94: compute the redirect target from the outcome of
`decodeURIComponent(String(rawState))`.  A throw (`.error ()`) is caught
and falls back to the root path; a decoded value is used only when it is
truthy and starts with a slash. -/
def callbackRedirect (decoded : Except Unit String) : String :=
  match decoded with
  | .error _ => "/"
  | .ok d => if d ≠ "" ∧ jsStartsWith d "/" = true then d else "/"

/-- The `/callback` handler.  `code` is `req.query.code`; `exchange` the
outcome of `authorizationCodeGrant(code)`; `decoded` the outcome of
`decodeURIComponent(String(req.query.state || ''))`; `now` is `Date.now()`
at the moment the token response is stored. -/
def handleCallback (c : Creds) (code : Option String) (now : Int)
    (exchange : Except Unit TokenBody) (decoded : Except Unit String) :
    CallbackResponse × Creds :=
  if !(jsTruthyStr code) then (.missingCode, c)
  else
    match exchange with
    | .error _ => (.authError, c)
    | .ok tb =>
        let c2 : Creds :=
          { accessToken := some tb.access_token,
            refreshToken := some tb.refresh_token,
            expiresAt := now + tb.expires_in * 1000 }
        (.redirect (callbackRedirect decoded), c2)

/-! ## Filesystem model and canvas asset lookup
(src/server.js lines 198-224) -/

/-- Filesystem state as the handler observes it.  `files` is the set of
paths for which `fs.existsSync` is true (relative to `__dirname`).
`canvasJson` describes `canvas.json`: `none` when the file does not exist;
`some (.error ())` when `fs.readFileSync` or `JSON.parse` throws;
`some (.ok none)` when it parses to a falsy JSON value (`null`, `0`, …);
`some (.ok (some m))` when it parses to an object, modelled as an
association list from track id to the mapped URL value. -/
structure Fs where
  files : List String
  canvasJson : Option (Except Unit (Option (List (String × String))))

/-- The `canvas.json` branch (lines 210-219): consult the mapping only when
the file exists and parses, and only adopt a truthy entry
(`if (mapping && mapping[out.item.id]) …`). -/
def canvasMapLookup (fs : Fs) (id : String) : Option String :=
  match fs.canvasJson with
  | none => none
  | some (.error _) => none
  | some (.ok none) => none
  | some (.ok (some mapping)) =>
      match mapping.lookup id with
      | none => none
      | some url => if url ≠ "" then some url else none

/-- Canvas asset lookup for a track id (lines 201-220): first
`public/canvas/<id>.mp4`, then `public/canvas/<id>.webm`, then the
`canvas.json` mapping. -/
def canvasLookup (fs : Fs) (id : String) : Option String :=
  if fs.files.contains ("public/canvas/" ++ id ++ ".mp4") then
    some ("/canvas/" ++ id ++ ".mp4")
  else if fs.files.contains ("public/canvas/" ++ id ++ ".webm") then
    some ("/canvas/" ++ id ++ ".webm")
  else
    canvasMapLookup fs id

/-! ## The `/now-playing` handler (src/server.js lines 170-230) -/

/-- One entry of `item.album.images`. -/
structure AlbumImage where
  url : String
  height : Nat
  width : Nat
  deriving DecidableEq

/-- An artist object, of which the projection keeps only the name. -/
structure RawArtist where
  name : String
  deriving DecidableEq

/-- The album object of the raw provider item. -/
structure RawAlbum where
  name : String
  images : List AlbumImage
  deriving DecidableEq

/-- The raw `data.body.item` of `getMyCurrentPlaybackState`, restricted to
the fields the projection reads.  `external_urls` is kept opaque (the code
copies it verbatim). -/
structure RawItem where
  id : String
  name : String
  artists : List RawArtist
  album : RawAlbum
  duration_ms : Nat
  external_urls : String
  deriving DecidableEq

/-- The raw `data.body`, restricted to the fields the handler reads.
`none` for `item` / `progress_ms` / `is_playing` models the provider
omitting the field (JS `undefined` / `null`). -/
structure PlaybackBody where
  item : Option RawItem
  progress_ms : Option Nat
  is_playing : Option Bool
  deriving DecidableEq

/-- A resolved `getMyCurrentPlaybackState` response: its `body` (absent
models a falsy `data.body`) and HTTP `status`. -/
structure ProviderResponse where
  body : Option PlaybackBody
  status : Nat
  deriving DecidableEq

/-- The projected `out.item` object (lines 187-195), with the optional
`canvas_url` added by the canvas lookup. -/
structure OutItem where
  id : String
  name : String
  artists : List String
  album : String
  album_images : List AlbumImage
  duration_ms : Nat
  external_urls : String
  canvas_url : Option String
  deriving DecidableEq

/-- The four possible `/now-playing` responses: the 401 unauthenticated
JSON carrying `auth_possible`, the 200 `{is_playing:false, item:null}`
no-active-session JSON of line 176, the 200 snapshot JSON of line 225, and
the 500 `{error:"failed", details:String(err)}` JSON of line 228. -/
inductive NowPlayingResponse where
  | unauthenticated (auth_possible : Bool)
  | noActive
  | snapshot (is_playing : Bool) (progress_ms : Nat) (timestamp : Int)
      (item : Option OutItem)
  | failure (details : String)
  deriving DecidableEq

/-- HTTP status of each `/now-playing` response (`res.json` without
`res.status` is 200). -/
def statusOf : NowPlayingResponse → Nat
  | .unauthenticated _ => 401
  | .noActive => 200
  | .snapshot _ _ _ _ => 200
  | .failure _ => 500

/-- The `details` field of a `/now-playing` response, when it has one. -/
def respDetails : NowPlayingResponse → Option String
  | .failure d => some d
  | _ => none

/-- Build `out.item` from the raw item (lines 187-195) and run the canvas
lookup on it (lines 200-220, guarded by `out.item.id` being truthy). -/
def projectItem (fs : Fs) (it : RawItem) : OutItem :=
  let base : OutItem :=
    { id := it.id, name := it.name,
      artists := it.artists.map (fun a => a.name),
      album := it.album.name, album_images := it.album.images,
      duration_ms := it.duration_ms, external_urls := it.external_urls,
      canvas_url := none }
  if it.id ≠ "" then { base with canvas_url := canvasLookup fs it.id }
  else base

/-- The `/now-playing` handler.  `now`/`nowAfter` are the `Date.now()`
instants inside `refreshAccessTokenIfNeeded`, `ts` the `Date.now()` of the
snapshot timestamp; `refreshResult` and `provider` are the outcomes of the
two provider calls (the `.error` payload of `provider` is `String(err)` for
the thrown value, exactly what line 228 puts into `details`).  Returns the
response together with the credential state after the handler ran. -/
def nowPlaying (cfg : Config) (c : Creds) (now nowAfter ts : Int)
    (refreshResult : Except String RefreshBody)
    (provider : Except String ProviderResponse)
    (fs : Fs) : NowPlayingResponse × Creds :=
  let c2 := refreshAccessTokenIfNeeded c now nowAfter refreshResult
  if !(jsTruthyStr c2.accessToken) then
    (.unauthenticated (authPossible cfg), c2)
  else
    match provider with
    | .error e => (.failure e, c2)
    | .ok data =>
        match data.body with
        | none => (.noActive, c2)
        | some b =>
            if data.status == 204 then (.noActive, c2)
            else
              (.snapshot (b.is_playing.getD false) (b.progress_ms.getD 0)
                ts (b.item.map (projectItem fs)), c2)

/-! ## Theorems -/

/-- Helper: a false `List.contains` check refutes the corresponding `if`
condition. -/
theorem not_contains_of_eq_false {l : List String} {x : String}
    (h : l.contains x = false) : ¬(l.contains x = true) := by
  rw [h]
  exact Bool.false_ne_true

/-- C1: In handleCallback, after a successful code exchange, the redirect
path equals the percent-decoded state parameter when that decoded value is
non-empty and starts with a slash, and is the root path otherwise
(in particular a state decoding to an absolute URL of another host is
rejected in favour of the root path). -/
theorem C1_callback_redirect_policy (c : Creds) (code : Option String)
    (now : Int) (tb : TokenBody) (d : String)
    (hcode : jsTruthyStr code = true) :
    ((d ≠ "" ∧ jsStartsWith d "/" = true) →
      (handleCallback c code now (.ok tb) (.ok d)).1 = .redirect d) ∧
    (¬(d ≠ "" ∧ jsStartsWith d "/" = true) →
      (handleCallback c code now (.ok tb) (.ok d)).1 = .redirect "/") := by
  have h1 : (handleCallback c code now (.ok tb) (.ok d)).1 =
      .redirect (callbackRedirect (.ok d)) := by
    simp [handleCallback, hcode]
  refine ⟨fun h => ?_, fun h => ?_⟩
  · rw [h1]
    show CallbackResponse.redirect
      (if d ≠ "" ∧ jsStartsWith d "/" = true then d else "/") =
        CallbackResponse.redirect d
    rw [if_pos h]
  · rw [h1]
    show CallbackResponse.redirect
      (if d ≠ "" ∧ jsStartsWith d "/" = true then d else "/") =
        CallbackResponse.redirect "/"
    rw [if_neg h]

/-- C1 witness: a state decoding to "https://evil.example/x" yields the
root path, a state decoding to "/dashboard" yields "/dashboard". -/
theorem C1_callback_redirect_policy_witness :
    (handleCallback ⟨none, none, 0⟩ (some "abc") 0 (.ok ⟨"at", "rt", 3600⟩)
        (.ok "https://evil.example/x")).1 = .redirect "/" ∧
    (handleCallback ⟨none, none, 0⟩ (some "abc") 0 (.ok ⟨"at", "rt", 3600⟩)
        (.ok "/dashboard")).1 = .redirect "/dashboard" :=
  ⟨(C1_callback_redirect_policy _ _ _ _ _ (by decide)).2 (by decide),
   (C1_callback_redirect_policy _ _ _ _ _ (by decide)).1 (by decide)⟩

/-- C2: the refresh decision is true iff a refresh token is held and
now is at or past expiresAt minus the 30-second buffer; with expiresAt more
than 30 seconds in the future it is false; and it is exactly the decision
to call the provider refresh inside refreshAccessTokenIfNeeded. -/
theorem C2_needsRefresh_characterization (c : Creds) (now : Int) :
    (needsRefresh c now = true ↔
      (jsTruthyStr c.refreshToken = true ∧ c.expiresAt - 30000 ≤ now)) ∧
    (now + 30000 < c.expiresAt → needsRefresh c now = false) ∧
    (jsTruthyStr c.refreshToken = true → c.expiresAt - 30000 ≤ now →
      needsRefresh c now = true) ∧
    (∀ (nowAfter : Int) (r : Except String RefreshBody),
      needsRefresh c now = false →
      refreshAccessTokenIfNeeded c now nowAfter r = c) ∧
    (∀ (nowAfter : Int) (b : RefreshBody),
      needsRefresh c now = true →
      refreshAccessTokenIfNeeded c now nowAfter (.ok b) =
        { c with accessToken := some b.access_token,
                 expiresAt := nowAfter + b.expires_in * 1000 }) := by
  unfold needsRefresh refreshAccessTokenIfNeeded
  by_cases ht : jsTruthyStr c.refreshToken <;>
    by_cases he : now < c.expiresAt - 30000 <;>
      simp [ht, he] <;> omega

/-- C2 witness: at expiresAt minus exactly 30s the decision is true, one
millisecond earlier (relative to the buffer) it is false. -/
theorem C2_needsRefresh_characterization_witness :
    needsRefresh ⟨none, some "rt", 100000⟩ 70000 = true ∧
    needsRefresh ⟨none, some "rt", 100001⟩ 70000 = false :=
  ⟨(C2_needsRefresh_characterization ⟨none, some "rt", 100000⟩ 70000).2.2.1
      (by decide) (by decide),
   (C2_needsRefresh_characterization ⟨none, some "rt", 100001⟩ 70000).2.1
      (by decide)⟩

/-- C3: when a triggered refresh fails, the prior credential state is left
untouched (access token, refresh token and expiry all unchanged), and the
failure is absorbed: the now-playing handler turns it into the 401
unauthenticated response (when no access token is held), never a raised
error. -/
theorem C3_refresh_failure_absorbed (c : Creds) (now nowAfter : Int)
    (e : String) (ht : jsTruthyStr c.refreshToken = true)
    (hd : c.expiresAt - 30000 ≤ now) :
    refreshAccessTokenIfNeeded c now nowAfter (.error e) = c ∧
    (∀ (cfg : Config) (ts : Int) (prov : Except String ProviderResponse)
        (fs : Fs), jsTruthyStr c.accessToken = false →
      (nowPlaying cfg c now nowAfter ts (.error e) prov fs).1 =
        .unauthenticated (authPossible cfg)) := by
  have hkeep : refreshAccessTokenIfNeeded c now nowAfter (.error e) = c := by
    unfold refreshAccessTokenIfNeeded
    simp [ht, Int.not_lt.mpr hd]
  refine ⟨hkeep, fun cfg ts prov fs hacc => ?_⟩
  unfold nowPlaying
  rw [hkeep]
  simp [hacc]

/-- C3 witness: a failing refresh on an expired credential leaves the state
bit-for-bit unchanged and the poll answers 401 unauthenticated. -/
theorem C3_refresh_failure_absorbed_witness :
    refreshAccessTokenIfNeeded ⟨none, some "rt", 0⟩ 0 5 (.error "boom") =
      ⟨none, some "rt", 0⟩ ∧
    (nowPlaying ⟨none, none⟩ ⟨none, some "rt", 0⟩ 0 5 9 (.error "boom")
        (.ok ⟨none, 200⟩) ⟨[], none⟩).1 =
      .unauthenticated (authPossible ⟨none, none⟩) :=
  ⟨(C3_refresh_failure_absorbed ⟨none, some "rt", 0⟩ 0 5 "boom"
      (by decide) (by decide)).1,
   (C3_refresh_failure_absorbed ⟨none, some "rt", 0⟩ 0 5 "boom"
      (by decide) (by decide)).2 _ _ _ _ (by decide)⟩

/-- C4: when the provider reports no active session (absent body or a 204
status), the now-playing handler returns the is_playing-false, item-null
success shape with status 200, never an error. -/
theorem C4_no_active_session (cfg : Config) (c : Creds)
    (now nowAfter ts : Int) (rr : Except String RefreshBody) (fs : Fs)
    (data : ProviderResponse)
    (htok : jsTruthyStr
      (refreshAccessTokenIfNeeded c now nowAfter rr).accessToken = true)
    (hna : data.body = none ∨ data.status = 204) :
    (nowPlaying cfg c now nowAfter ts rr (.ok data) fs).1 = .noActive ∧
    statusOf .noActive = 200 := by
  refine ⟨?_, rfl⟩
  unfold nowPlaying
  simp only [htok, Bool.not_true, Bool.false_eq_true, if_false]
  rcases hna with h | h
  · simp [h]
  · cases hb : data.body <;> simp [h, hb]

/-- C4 witness: an authenticated poll answered by the provider with an
absent body yields the no-active-session success shape. -/
theorem C4_no_active_session_witness :
    (nowPlaying ⟨some "i", some "s"⟩ ⟨some "tok", none, 0⟩ 0 0 7
        (.error "r") (.ok ⟨none, 200⟩) ⟨[], none⟩).1 = .noActive ∧
    statusOf .noActive = 200 :=
  C4_no_active_session ⟨some "i", some "s"⟩ ⟨some "tok", none, 0⟩ 0 0 7
    (.error "r") ⟨[], none⟩ ⟨none, 200⟩ (by decide) (Or.inl rfl)

/-- C5: a now-playing request while no access token is held yields the 401
unauthenticated response, whose auth_possible field is true exactly when
both client id and client secret are present. -/
theorem C5_unauthenticated_response (cfg : Config) (c : Creds)
    (now nowAfter ts : Int) (rr : Except String RefreshBody)
    (prov : Except String ProviderResponse) (fs : Fs)
    (htok : jsTruthyStr
      (refreshAccessTokenIfNeeded c now nowAfter rr).accessToken = false) :
    (nowPlaying cfg c now nowAfter ts rr prov fs).1 =
      .unauthenticated (authPossible cfg) ∧
    statusOf (.unauthenticated (authPossible cfg)) = 401 ∧
    (authPossible cfg = true ↔
      (jsTruthyStr cfg.clientId = true ∧
        jsTruthyStr cfg.clientSecret = true)) := by
  refine ⟨?_, rfl, ?_⟩
  · unfold nowPlaying
    simp [htok]
  · unfold authPossible
    simp

/-- C5 witness: with the client secret alone configured the flag is false,
with both present it is true; the unauthenticated shape is returned in both
cases. -/
theorem C5_unauthenticated_response_witness :
    (nowPlaying ⟨none, some "s"⟩ ⟨none, none, 0⟩ 0 0 0 (.error "r")
        (.error "p") ⟨[], none⟩).1 =
      .unauthenticated (authPossible ⟨none, some "s"⟩) ∧
    authPossible ⟨none, some "s"⟩ = false ∧
    (nowPlaying ⟨some "i", some "s"⟩ ⟨none, none, 0⟩ 0 0 0 (.error "r")
        (.error "p") ⟨[], none⟩).1 =
      .unauthenticated (authPossible ⟨some "i", some "s"⟩) ∧
    authPossible ⟨some "i", some "s"⟩ = true :=
  ⟨(C5_unauthenticated_response ⟨none, some "s"⟩ ⟨none, none, 0⟩ 0 0 0
      (.error "r") (.error "p") ⟨[], none⟩ (by decide)).1,
   by decide,
   (C5_unauthenticated_response ⟨some "i", some "s"⟩ ⟨none, none, 0⟩ 0 0 0
      (.error "r") (.error "p") ⟨[], none⟩ (by decide)).1,
   by decide⟩

/-- C6 counterexample: a provider call that rejects with a value whose
string form is empty yields a 500 response whose details field is the
empty string, refuting the claim that the details field is always
non-empty. -/
theorem C6_empty_details_counterexample :
    respDetails (nowPlaying ⟨some "i", some "s"⟩ ⟨some "tok", none, 0⟩ 0 0 0
        (.error "r") (.error "") ⟨[], none⟩).1 = some "" ∧
    statusOf (nowPlaying ⟨some "i", some "s"⟩ ⟨some "tok", none, 0⟩ 0 0 0
        (.error "r") (.error "") ⟨[], none⟩).1 = 500 := by
  decide

/-- C6 (amended): when the provider playback-state call throws, the
response is the 500 error shape whose details field carries the stringified
upstream error verbatim — never a success response — and the details field
is non-empty whenever that stringified error is non-empty. -/
theorem C6_provider_error_propagated (cfg : Config) (c : Creds)
    (now nowAfter ts : Int) (rr : Except String RefreshBody) (fs : Fs)
    (e : String)
    (htok : jsTruthyStr
      (refreshAccessTokenIfNeeded c now nowAfter rr).accessToken = true) :
    (nowPlaying cfg c now nowAfter ts rr (.error e) fs).1 = .failure e ∧
    statusOf (.failure e) = 500 ∧
    (e ≠ "" → respDetails (.failure e) ≠ some "") := by
  refine ⟨?_, rfl, fun h => by simp [respDetails, h]⟩
  unfold nowPlaying
  simp [htok]

/-- C6 witness: a provider rejection stringifying to "boom" yields the 500
failure shape carrying "boom". -/
theorem C6_provider_error_propagated_witness :
    (nowPlaying ⟨some "i", some "s"⟩ ⟨some "tok", none, 0⟩ 0 0 0
        (.error "r") (.error "boom") ⟨[], none⟩).1 = .failure "boom" ∧
    statusOf (.failure "boom") = 500 ∧
    ("boom" ≠ "" → respDetails (.failure "boom") ≠ some "") :=
  C6_provider_error_propagated ⟨some "i", some "s"⟩ ⟨some "tok", none, 0⟩
    0 0 0 (.error "r") ⟨[], none⟩ "boom" (by decide)

/-- C7: the canvas asset lookup checks the mp4 file first, then the webm
file, and only then the canvas.json mapping — first match wins, so a local
file always beats a mapping entry. -/
theorem C7_canvas_precedence (fs : Fs) (id : String) :
    (fs.files.contains ("public/canvas/" ++ id ++ ".mp4") = true →
      canvasLookup fs id = some ("/canvas/" ++ id ++ ".mp4")) ∧
    (fs.files.contains ("public/canvas/" ++ id ++ ".mp4") = false →
      fs.files.contains ("public/canvas/" ++ id ++ ".webm") = true →
      canvasLookup fs id = some ("/canvas/" ++ id ++ ".webm")) ∧
    (fs.files.contains ("public/canvas/" ++ id ++ ".mp4") = false →
      fs.files.contains ("public/canvas/" ++ id ++ ".webm") = false →
      canvasLookup fs id = canvasMapLookup fs id) := by
  unfold canvasLookup
  refine ⟨fun h1 => ?_, fun h1 h2 => ?_, fun h1 h2 => ?_⟩
  · rw [if_pos h1]
  · rw [if_neg (not_contains_of_eq_false h1), if_pos h2]
  · rw [if_neg (not_contains_of_eq_false h1),
      if_neg (not_contains_of_eq_false h2)]

/-- C7 witness: with both the local mp4 file and a truthy mapping entry
present for the same track id, the file-based URL wins. -/
theorem C7_canvas_precedence_witness :
    canvasLookup ⟨["public/canvas/t1.mp4"],
        some (.ok (some [("t1", "http://mapped")]))⟩ "t1" =
      some "/canvas/t1.mp4" ∧
    canvasMapLookup ⟨["public/canvas/t1.mp4"],
        some (.ok (some [("t1", "http://mapped")]))⟩ "t1" =
      some "http://mapped" :=
  ⟨(C7_canvas_precedence ⟨["public/canvas/t1.mp4"],
      some (.ok (some [("t1", "http://mapped")]))⟩ "t1").1 (by decide),
   by decide⟩

/-- C8: a read or parse failure of canvas.json leaves the canvas URL absent
from the returned track while the snapshot request still succeeds with the
normal 200 response shape — the lookup failure is never propagated. -/
theorem C8_mapping_failure_best_effort (cfg : Config) (c : Creds)
    (now nowAfter ts : Int) (rr : Except String RefreshBody) (fs : Fs)
    (data : ProviderResponse) (b : PlaybackBody) (it : RawItem)
    (htok : jsTruthyStr
      (refreshAccessTokenIfNeeded c now nowAfter rr).accessToken = true)
    (hbody : data.body = some b) (hst : data.status ≠ 204)
    (hit : b.item = some it)
    (hmap : fs.canvasJson = some (.error ()))
    (hmp4 : fs.files.contains ("public/canvas/" ++ it.id ++ ".mp4") = false)
    (hwebm : fs.files.contains
      ("public/canvas/" ++ it.id ++ ".webm") = false) :
    (nowPlaying cfg c now nowAfter ts rr (.ok data) fs).1 =
      .snapshot (b.is_playing.getD false) (b.progress_ms.getD 0) ts
        (some (projectItem fs it)) ∧
    (projectItem fs it).canvas_url = none ∧
    statusOf (.snapshot (b.is_playing.getD false) (b.progress_ms.getD 0) ts
      (some (projectItem fs it))) = 200 := by
  have hlook : canvasLookup fs it.id = none := by
    unfold canvasLookup canvasMapLookup
    rw [if_neg (not_contains_of_eq_false hmp4),
      if_neg (not_contains_of_eq_false hwebm), hmap]
  refine ⟨?_, ?_, rfl⟩
  · unfold nowPlaying
    simp [htok, hbody, hst, hit]
  · unfold projectItem
    by_cases hid : it.id = "" <;> simp [hid, hlook]

/-- C8 witness: with canvas.json present but unparsable and no local asset
files, an authenticated poll with an active track yields the normal
snapshot whose track carries no canvas URL. -/
theorem C8_mapping_failure_best_effort_witness :
    (nowPlaying ⟨some "i", some "s"⟩ ⟨some "tok", none, 0⟩ 0 0 7
        (.error "r")
        (.ok ⟨some ⟨some ⟨"t1", "Song", [⟨"Artist"⟩],
            ⟨"Album", [⟨"u", 64, 64⟩]⟩, 1000, "ext"⟩, some 5, some true⟩,
          200⟩)
        ⟨[], some (.error ())⟩).1 =
      .snapshot true 5 7
        (some (projectItem ⟨[], some (.error ())⟩
          ⟨"t1", "Song", [⟨"Artist"⟩], ⟨"Album", [⟨"u", 64, 64⟩]⟩,
            1000, "ext"⟩)) ∧
    (projectItem ⟨[], some (.error ())⟩
      ⟨"t1", "Song", [⟨"Artist"⟩], ⟨"Album", [⟨"u", 64, 64⟩]⟩,
        1000, "ext"⟩).canvas_url = none :=
  ⟨(C8_mapping_failure_best_effort ⟨some "i", some "s"⟩ ⟨some "tok", none, 0⟩
      0 0 7 (.error "r") ⟨[], some (.error ())⟩
      ⟨some ⟨some ⟨"t1", "Song", [⟨"Artist"⟩],
          ⟨"Album", [⟨"u", 64, 64⟩]⟩, 1000, "ext"⟩, some 5, some true⟩, 200⟩
      ⟨some ⟨"t1", "Song", [⟨"Artist"⟩], ⟨"Album", [⟨"u", 64, 64⟩]⟩,
          1000, "ext"⟩, some 5, some true⟩
      ⟨"t1", "Song", [⟨"Artist"⟩], ⟨"Album", [⟨"u", 64, 64⟩]⟩, 1000, "ext"⟩
      (by decide) rfl (by decide) rfl rfl (by decide) (by decide)).1,
   (C8_mapping_failure_best_effort ⟨some "i", some "s"⟩ ⟨some "tok", none, 0⟩
      0 0 7 (.error "r") ⟨[], some (.error ())⟩
      ⟨some ⟨some ⟨"t1", "Song", [⟨"Artist"⟩],
          ⟨"Album", [⟨"u", 64, 64⟩]⟩, 1000, "ext"⟩, some 5, some true⟩, 200⟩
      ⟨some ⟨"t1", "Song", [⟨"Artist"⟩], ⟨"Album", [⟨"u", 64, 64⟩]⟩,
          1000, "ext"⟩, some 5, some true⟩
      ⟨"t1", "Song", [⟨"Artist"⟩], ⟨"Album", [⟨"u", 64, 64⟩]⟩, 1000, "ext"⟩
      (by decide) rfl (by decide) rfl rfl (by decide) (by decide)).2.1⟩

/-- C9: with no refresh token held, refreshAccessTokenIfNeeded is a total
no-op: it returns normally and leaves the full credential state unchanged,
whatever the stored expiry and whatever the provider would have
answered. -/
theorem C9_no_refresh_token_noop (c : Creds) (now nowAfter : Int)
    (r : Except String RefreshBody)
    (h : jsTruthyStr c.refreshToken = false) :
    refreshAccessTokenIfNeeded c now nowAfter r = c := by
  unfold refreshAccessTokenIfNeeded
  simp [h]

/-- C9 witness: with no refresh token and a long-expired stored expiry, a
would-succeed refresh outcome still leaves the state unchanged. -/
theorem C9_no_refresh_token_noop_witness :
    refreshAccessTokenIfNeeded ⟨some "tok", none, -999999⟩ 12345 99999
      (.ok ⟨"new", 3600⟩) = ⟨some "tok", none, -999999⟩ :=
  C9_no_refresh_token_noop ⟨some "tok", none, -999999⟩ 12345 99999
    (.ok ⟨"new", 3600⟩) (by decide)

/-- C10: when the code exchange succeeds but percent-decoding of the state
parameter throws, the callback still succeeds: it redirects (302) to the
root path instead of returning an error response. -/
theorem C10_decode_throw_falls_back (c : Creds) (code : Option String)
    (now : Int) (tb : TokenBody) (hcode : jsTruthyStr code = true) :
    (handleCallback c code now (.ok tb) (.error ())).1 = .redirect "/" ∧
    callbackStatus (.redirect "/") = 302 := by
  refine ⟨?_, rfl⟩
  simp [handleCallback, hcode, callbackRedirect]

/-- C10 witness: a successful exchange with a malformed state still
redirects to the root path. -/
theorem C10_decode_throw_falls_back_witness :
    (handleCallback ⟨none, none, 0⟩ (some "abc") 0 (.ok ⟨"at", "rt", 3600⟩)
        (.error ())).1 = .redirect "/" ∧
    callbackStatus (.redirect "/") = 302 :=
  C10_decode_throw_falls_back ⟨none, none, 0⟩ (some "abc") 0
    ⟨"at", "rt", 3600⟩ (by decide)

end SpotifyWallpaper
